import Mathlib

/-
Shallow embedding of the session-management / request-dispatch core of
src/Cinder/Queens/rest_client.py (class RestClient): init_http_head,
do_call, login, relogin, call, logout.

Modelling choices:
  - Python dicts returned by the controller are modelled by RestResult:
    a mandatory error object (code, description) and an optional data
    object carrying the fields the core reads (deviceid, iBaseToken,
    accountstate) plus an opaque extra string standing for the rest of
    the JSON payload.
  - The network is an oracle net : Nat -> NetOutcome giving the outcome
    of the k-th send performed by the client (exception raised by the
    requests library, non-2xx HTTP status, or a 2xx JSON body).
  - State threading is explicit: each operation maps a ClientState and
    a send counter to a new state, counter, the list of events it
    produced (in order), and an Except result (Python exceptions are
    modelled as Except.error).
  - The event trace records semaphore acquire/release, each network
    send (tagged with the call site that reached do_call), entry into
    login and relogin, and the per-endpoint LOG.error of the login loop.
  - The reader-writer lock has no effect on a single sequential
    execution, so it leaves no trace here; the semaphore discipline and
    its capacity are modelled explicitly.
-/

deriving instance DecidableEq for Except

namespace RestClient

/-- HTTP verb actually used by do_call after its method dispatch. -/
inductive Verb where
  | post
  | put
  | get
  | delete
deriving DecidableEq, Repr

/-- Which call site reached do_call (ghost instrumentation only). -/
inductive SendTag where
  | fromCall
  | fromLogin
  | fromLogout
deriving DecidableEq, Repr

/-- Request body handed to do_call: either an opaque body from a
resource operation, or the credential dict built by login. -/
inductive ReqData where
  | generic (body : String)
  | loginReq (username : String) (password : String) (scope : String)
deriving DecidableEq, Repr

/-- The error object of a controller response. -/
structure RestError where
  code : Int
  description : String
deriving DecidableEq, Repr

/-- The data object of a controller response: the fields the core
reads, plus an opaque remainder of the JSON payload. -/
structure RestData where
  deviceid : String
  iBaseToken : String
  accountstate : Int
  extra : String
deriving DecidableEq, Repr

/-- A parsed controller response (a Python dict with an error object
and an optional data object). -/
structure RestResult where
  error : RestError
  data : Option RestData
deriving DecidableEq, Repr

/-- Outcome of one physical send, as seen by do_call. -/
inductive NetOutcome where
  | exc
  | httpError (status : Int) (description : String)
  | ok (res : RestResult)
deriving DecidableEq, Repr

/-- Python exceptions that can escape the modelled code. -/
inductive PyErr where
  | volumeBackend (msg : String)
  | attrError
deriving DecidableEq, Repr

/-- The requests.Session object: the only field the core reads back is
the iBaseToken header (absent on a fresh session). -/
structure Session where
  iBaseToken : Option String
deriving DecidableEq, Repr

/-- Mutable state of a RestClient instance: self.url, self.session,
self.device_id. All three are absent at construction. -/
structure ClientState where
  url : Option String
  session : Option Session
  device_id : Option String
deriving DecidableEq, Repr

/-- Immutable configuration captured at construction. -/
structure Config where
  san_address : List String
  san_user : String
  san_password : String
  san_scope : String
deriving DecidableEq, Repr

/-- Modelled from the spec: the constants module imported by
rest_client.py is not under src/. The spec fixes only that there are
two sentinel codes (connect-failure and unauthorized), a small benign
pass-through whitelist, an account-state set meaning expired or
initial password, and two socket timeouts; their numeric values are
left abstract here. -/
structure Constants where
  ERROR_CONNECT_TO_SERVER : Int
  ERROR_UNAUTHORIZED_TO_SERVER : Int
  RELOGIN_ERROR_PASS : List Int
  PWD_EXPIRED_OR_INITIAL : List Int
  SOCKET_TIMEOUT : Nat
  LOGIN_SOCKET_TIMEOUT : Nat
deriving DecidableEq, Repr

/-- Events recorded by an execution, in order. -/
inductive Event where
  | acquire
  | send (tag : SendTag) (url : String) (data : Option ReqData) (verb : Verb)
  | release
  | loginEntry
  | reloginEntry
  | loginError (url : String) (reason : RestResult)
deriving DecidableEq, Repr

/-- Capacity of the concurrency semaphore: threading.Semaphore(20) in
RestClient.__init__. -/
def semaphoreCapacity : Nat := 20

/-- ClientState at construction: self.session = None, self.url = None,
and no device_id attribute yet. -/
def initialState : ClientState := { url := none, session := none, device_id := none }

/-- init_http_head: resets self.url to None and installs a fresh
requests.Session with keep-alive/JSON headers (no iBaseToken). -/
def init_http_head (st : ClientState) : ClientState :=
  { st with url := none, session := some { iBaseToken := none } }

/-- Method dispatch of do_call: None and POST map to session.post,
PUT/GET/DELETE to their verbs, anything else is invalid. -/
def pick_func : Option String → Option Verb
  | none => some Verb.post
  | some "POST" => some Verb.post
  | some "PUT" => some Verb.put
  | some "GET" => some Verb.get
  | some "DELETE" => some Verb.delete
  | some _ => none

/-- Absolute url resolution of do_call: self.url, when set, prefixes
the relative path. -/
def effUrl (st : ClientState) (url : String) : String :=
  match st.url with
  | some base => base ++ url
  | none => url

/-- Text of the method argument in the invalid-method error message. -/
def methodText : Option String → String
  | none => "None"
  | some m => m

/-- do_call: prefixes self.url when set, validates the method, then
acquires the semaphore, sends, and releases it in a finally block; a
transport exception is converted into a connect-error result, a
non-2xx status into an error result carrying the status code, and a
2xx body is returned parsed. The state is never modified. -/
def do_call (C : Constants) (net : Nat → NetOutcome) (st : ClientState) (n : Nat)
    (url : String) (data : Option ReqData) (method : Option String)
    (calltimeout : Nat) (filter_flag : Bool) (tag : SendTag) :
    Nat × List Event × Except PyErr RestResult :=
  let url1 := effUrl st url
  match pick_func method with
  | none =>
      (n, [], Except.error (PyErr.volumeBackend
        ("Request method " ++ methodText method ++ " is invalid.")))
  | some verb =>
      match st.session with
      | none => (n, [], Except.error PyErr.attrError)
      | some _ =>
          let tr := [Event.acquire, Event.send tag url1 data verb, Event.release]
          match net n with
          | NetOutcome.exc =>
              (n + 1, tr, Except.ok
                { error := { code := C.ERROR_CONNECT_TO_SERVER,
                             description := "Connect to server error." },
                  data := none })
          | NetOutcome.httpError status description =>
              (n + 1, tr, Except.ok
                { error := { code := status, description := description }, data := none })
          | NetOutcome.ok res => (n + 1, tr, Except.ok res)

/-- logout: when a base url is set, sends DELETE /sessions and asserts
a zero error code (raising VolumeBackendAPIException otherwise). -/
def logout (C : Constants) (net : Nat → NetOutcome) (st : ClientState) (n : Nat) :
    Nat × List Event × Except PyErr Unit :=
  match st.url with
  | none => (n, [], Except.ok ())
  | some _ =>
      match do_call C net st n "/sessions" none (some "DELETE")
          C.SOCKET_TIMEOUT false SendTag.fromLogout with
      | (n1, tr, Except.error e) => (n1, tr, Except.error e)
      | (n1, tr, Except.ok result) =>
          if result.error.code ≠ 0 then
            (n1, tr, Except.error (PyErr.volumeBackend "Logout session error."))
          else
            (n1, tr, Except.ok ())

/-- One run of the for-loop body of login over the remaining endpoint
list; returns the device id of the adopted endpoint, or none when the
list is exhausted without success. -/
def login_loop (cfg : Config) (C : Constants) (net : Nat → NetOutcome) :
    List String → ClientState → Nat →
    ClientState × Nat × List Event × Except PyErr (Option String)
  | [], st, n => (st, n, [], Except.ok none)
  | item_url :: rest, st, n =>
      let st1 := init_http_head st
      match do_call C net st1 n (item_url ++ "xx/sessions")
          (some (ReqData.loginReq cfg.san_user cfg.san_password cfg.san_scope))
          none C.LOGIN_SOCKET_TIMEOUT true SendTag.fromLogin with
      | (n1, tr1, Except.error e) => (st1, n1, tr1, Except.error e)
      | (n1, tr1, Except.ok result) =>
          if result.error.code ≠ 0 ∨ result.data = none then
            match login_loop cfg C net rest st1 n1 with
            | (st2, n2, tr2, v) =>
                (st2, n2, tr1 ++ Event.loginError item_url result :: tr2, v)
          else
            match result.data with
            | none =>
                (st1, n1, tr1 ++ [Event.loginError item_url result], Except.ok none)
            | some d =>
                match st1.session with
                | none => (st1, n1, tr1, Except.error PyErr.attrError)
                | some s =>
                    let st2 : ClientState :=
                      { st1 with
                        device_id := some d.deviceid,
                        url := some (item_url ++ d.deviceid),
                        session := some { s with iBaseToken := some d.iBaseToken } }
                    if d.accountstate ∈ C.PWD_EXPIRED_OR_INITIAL then
                      match logout C net st2 n1 with
                      | (n2, tr2, Except.error e) =>
                          (st2, n2, tr1 ++ tr2, Except.error e)
                      | (n2, tr2, Except.ok _) =>
                          (st2, n2, tr1 ++ tr2, Except.error (PyErr.volumeBackend
                            "Password has expired or initial, please change the password."))
                    else
                      (st2, n1, tr1, Except.ok (some d.deviceid))

/-- login: iterates the endpoint list in order, adopting the first
endpoint whose response has error code 0 and a data body; if the
adopted account has an expired or initial password it logs out and
fails fatally; if no endpoint succeeds it fails with the fixed
exhaustion message. Returns the adopted device id. -/
def login (cfg : Config) (C : Constants) (net : Nat → NetOutcome)
    (st : ClientState) (n : Nat) :
    ClientState × Nat × List Event × Except PyErr String :=
  match login_loop cfg C net cfg.san_address st n with
  | (st1, n1, tr, Except.error e) => (st1, n1, Event.loginEntry :: tr, Except.error e)
  | (st1, n1, tr, Except.ok none) =>
      (st1, n1, Event.loginEntry :: tr,
        Except.error (PyErr.volumeBackend "Failed to login with all rest URLs."))
  | (st1, n1, tr, Except.ok (some d)) =>
      (st1, n1, Event.loginEntry :: tr, Except.ok d)

/-- relogin: proceeds to login() only when self.url is None or the
current iBaseToken still equals old_token; any exception from login()
is swallowed and reported as False. Otherwise it is a no-op success. -/
def relogin (cfg : Config) (C : Constants) (net : Nat → NetOutcome)
    (st : ClientState) (n : Nat) (old_token : Option String) :
    ClientState × Nat × List Event × Except PyErr Bool :=
  let proceed :=
    match login cfg C net st n with
    | (st1, n1, tr, Except.error _) =>
        (st1, n1, Event.reloginEntry :: tr, Except.ok false)
    | (st1, n1, tr, Except.ok _) =>
        (st1, n1, Event.reloginEntry :: tr, Except.ok true)
  match st.url with
  | none => proceed
  | some _ =>
      match st.session with
      | none => (st, n, [Event.reloginEntry], Except.error PyErr.attrError)
      | some s =>
          if old_token = s.iBaseToken then proceed
          else (st, n, [Event.reloginEntry], Except.ok true)

/-- The synthesized unauthorized result returned by call when no
session is active. -/
def unauthorizedResult (C : Constants) : RestResult :=
  { error := { code := C.ERROR_UNAUTHORIZED_TO_SERVER, description := "unauthorized." },
    data := none }

/-- call: the retry-aware entry point. Sends once under the read lock
(or synthesizes an unauthorized result when no session is active); on
the two sentinel codes it relogins under the write lock and, when the
relogin reports success, resends once, normalizing a whitelisted
resend code to 0; otherwise the first result is returned as is. -/
def call (cfg : Config) (C : Constants) (net : Nat → NetOutcome)
    (st : ClientState) (n : Nat)
    (url : String) (data : Option ReqData) (method : Option String)
    (filter_flag : Bool) :
    ClientState × Nat × List Event × Except PyErr RestResult :=
  let step1 : Option String × (Nat × List Event × Except PyErr RestResult) :=
    match st.url with
    | some _ =>
        match st.session with
        | none => (none, (n, [], Except.error PyErr.attrError))
        | some s =>
            (s.iBaseToken,
             do_call C net st n url data method C.SOCKET_TIMEOUT filter_flag
               SendTag.fromCall)
    | none => (none, (n, [], Except.ok (unauthorizedResult C)))
  match step1 with
  | (_, (n1, tr1, Except.error e)) => (st, n1, tr1, Except.error e)
  | (old_token, (n1, tr1, Except.ok result)) =>
      if result.error.code = C.ERROR_CONNECT_TO_SERVER
          ∨ result.error.code = C.ERROR_UNAUTHORIZED_TO_SERVER then
        match relogin cfg C net st n1 old_token with
        | (st2, n2, tr2, Except.error e) =>
            (st2, n2, tr1 ++ tr2, Except.error e)
        | (st2, n2, tr2, Except.ok true) =>
            match do_call C net st2 n2 url data method C.SOCKET_TIMEOUT filter_flag
                SendTag.fromCall with
            | (n3, tr3, Except.error e) => (st2, n3, tr1 ++ tr2 ++ tr3, Except.error e)
            | (n3, tr3, Except.ok result2) =>
                if result2.error.code ∈ C.RELOGIN_ERROR_PASS then
                  (st2, n3, tr1 ++ tr2 ++ tr3,
                   Except.ok { result2 with error := { result2.error with code := 0 } })
                else
                  (st2, n3, tr1 ++ tr2 ++ tr3, Except.ok result2)
        | (st2, n2, tr2, Except.ok false) =>
            (st2, n2, tr1 ++ tr2, Except.ok result)
      else
        (st, n1, tr1, Except.ok result)

/-- Recognizes a send event performed directly by call (first send or
relogin-triggered resend), as opposed to login/logout sends. -/
def isCallSend : Event → Bool
  | Event.send SendTag.fromCall _ _ _ => true
  | _ => false

/-- Recognizes any send event. -/
def isSend : Event → Bool
  | Event.send _ _ _ _ => true
  | _ => false

/-- Recognizes the entry marker of relogin. -/
def isReloginEntry : Event → Bool
  | Event.reloginEntry => true
  | _ => false

/-- Recognizes the entry marker of login. -/
def isLoginEntry : Event → Bool
  | Event.loginEntry => true
  | _ => false

/-- Recognizes a semaphore acquire. -/
def isAcquire : Event → Bool
  | Event.acquire => true
  | _ => false

/-- Recognizes a semaphore release. -/
def isRelease : Event → Bool
  | Event.release => true
  | _ => false

/-- Urls of the send events of a trace, in order. -/
def sendUrls (tr : List Event) : List String :=
  tr.filterMap fun e =>
    match e with
    | Event.send _ u _ _ => some u
    | _ => none

/-- Gate discipline of a trace: every semaphore acquire is immediately
followed by one send and then a release, and sends or releases occur
nowhere else. -/
def gateOK : List Event → Bool
  | [] => true
  | Event.acquire :: Event.send _ _ _ _ :: Event.release :: rest => gateOK rest
  | Event.acquire :: _ => false
  | Event.send _ _ _ _ :: _ => false
  | Event.release :: _ => false
  | _ :: rest => gateOK rest

/-- Whether a login attempt against one endpoint fails with this
network outcome: an exception or HTTP error yields a result without a
data body, and a parsed body fails when its code is non-zero or it has
no data. -/
def loginRespFails : NetOutcome → Bool
  | NetOutcome.ok r => !(r.error.code == 0) || r.data == none
  | _ => true

/-- Phase of one abstract client thread with respect to the
concurrency semaphore: before acquiring, holding a permit while its
send is in flight, or finished after releasing. -/
inductive ProcPhase where
  | idle
  | inFlight
  | done
deriving DecidableEq, Repr

/-- State of the concurrency gate: free permits plus the phase of each
concurrent thread. -/
structure GateState where
  avail : Nat
  procs : List ProcPhase
deriving DecidableEq, Repr

/-- Interleaved steps of threads that follow the acquire-send-release
discipline of do_call: acquiring blocks unless a permit is free;
releasing is always enabled for a thread in flight. -/
inductive GateStep : GateState → GateState → Prop where
  | acquire (avail : Nat) (l r : List ProcPhase) : 0 < avail →
      GateStep ⟨avail, l ++ ProcPhase.idle :: r⟩
               ⟨avail - 1, l ++ ProcPhase.inFlight :: r⟩
  | release (avail : Nat) (l r : List ProcPhase) :
      GateStep ⟨avail, l ++ ProcPhase.inFlight :: r⟩
               ⟨avail + 1, l ++ ProcPhase.done :: r⟩

/-- Recognizes a thread holding a permit. -/
def isInFlight : ProcPhase → Bool
  | ProcPhase.inFlight => true
  | _ => false

/-- Number of sends currently in flight. -/
def inFlightCount (s : GateState) : Nat :=
  s.procs.countP isInFlight

/-- Initial gate state: all permits free, no thread started. -/
def GateInit (s : GateState) : Prop :=
  s.avail = semaphoreCapacity ∧ ∀ p ∈ s.procs, p = ProcPhase.idle

/-- A do_call that returns a parsed result performed exactly one send:
its trace is one acquire-send-release bracket and it consumed one
network outcome. -/
theorem do_call_ok_trace (C : Constants) (net : Nat → NetOutcome) (st : ClientState)
    (n : Nat) (url : String) (data : Option ReqData) (method : Option String)
    (ct : Nat) (ff : Bool) (tag : SendTag) (n1 : Nat) (tr : List Event) (res : RestResult)
    (h : do_call C net st n url data method ct ff tag = (n1, tr, Except.ok res)) :
    ∃ u v, tr = [Event.acquire, Event.send tag u data v, Event.release] ∧ n1 = n + 1 := by
  unfold do_call at h
  split at h
  · simp only [Prod.mk.injEq] at h
    exact absurd h.2.2 (by simp)
  · split at h
    · simp only [Prod.mk.injEq] at h
      exact absurd h.2.2 (by simp)
    · split at h <;>
        · simp only [Prod.mk.injEq] at h
          exact ⟨_, _, h.2.1.symm, h.1.symm⟩

/-- A do_call that raises performed no send and left the trace and the
send counter untouched. -/
theorem do_call_err_trace (C : Constants) (net : Nat → NetOutcome) (st : ClientState)
    (n : Nat) (url : String) (data : Option ReqData) (method : Option String)
    (ct : Nat) (ff : Bool) (tag : SendTag) (n1 : Nat) (tr : List Event) (e : PyErr)
    (h : do_call C net st n url data method ct ff tag = (n1, tr, Except.error e)) :
    tr = [] ∧ n1 = n := by
  unfold do_call at h
  split at h
  · simp only [Prod.mk.injEq] at h
    exact ⟨h.2.1.symm, h.1.symm⟩
  · split at h
    · simp only [Prod.mk.injEq] at h
      exact ⟨h.2.1.symm, h.1.symm⟩
    · split at h <;>
        · simp only [Prod.mk.injEq] at h
          exact absurd h.2.2 (by simp)

/-- The trace of any do_call is empty or a single bracket. -/
theorem do_call_trace_cases (C : Constants) (net : Nat → NetOutcome) (st : ClientState)
    (n : Nat) (url : String) (data : Option ReqData) (method : Option String)
    (ct : Nat) (ff : Bool) (tag : SendTag) :
    (do_call C net st n url data method ct ff tag).2.1 = [] ∨
    ∃ u v, (do_call C net st n url data method ct ff tag).2.1 =
      [Event.acquire, Event.send tag u data v, Event.release] := by
  rcases hdc : do_call C net st n url data method ct ff tag with ⟨n1, tr, r⟩
  cases r with
  | error e =>
      left
      have := do_call_err_trace C net st n url data method ct ff tag n1 tr e hdc
      simpa using this.1
  | ok res =>
      right
      obtain ⟨u, v, htr, _⟩ := do_call_ok_trace C net st n url data method ct ff tag n1 tr res hdc
      exact ⟨u, v, by simpa using htr⟩

/-- A do_call performs at most one send directly attributed to call. -/
theorem do_call_countP_callSend_le (C : Constants) (net : Nat → NetOutcome)
    (st : ClientState) (n : Nat) (url : String) (data : Option ReqData)
    (method : Option String) (ct : Nat) (ff : Bool) (tag : SendTag) :
    ((do_call C net st n url data method ct ff tag).2.1).countP isCallSend ≤ 1 := by
  rcases do_call_trace_cases C net st n url data method ct ff tag with h | ⟨u, v, h⟩ <;>
    rw [h] <;> simp [List.countP, List.countP.go, isCallSend] <;> split <;> simp

/-- A do_call from login or logout performs no call-attributed send. -/
theorem do_call_countP_callSend_zero (C : Constants) (net : Nat → NetOutcome)
    (st : ClientState) (n : Nat) (url : String) (data : Option ReqData)
    (method : Option String) (ct : Nat) (ff : Bool) (tag : SendTag)
    (htag : tag ≠ SendTag.fromCall) :
    ((do_call C net st n url data method ct ff tag).2.1).countP isCallSend = 0 := by
  rcases do_call_trace_cases C net st n url data method ct ff tag with h | ⟨u, v, h⟩ <;>
    rw [h]
  · rfl
  · cases tag <;> simp [List.countP, List.countP.go, isCallSend] at htag ⊢

/-- A do_call records no relogin entry. -/
theorem do_call_countP_reloginEntry (C : Constants) (net : Nat → NetOutcome)
    (st : ClientState) (n : Nat) (url : String) (data : Option ReqData)
    (method : Option String) (ct : Nat) (ff : Bool) (tag : SendTag) :
    ((do_call C net st n url data method ct ff tag).2.1).countP isReloginEntry = 0 := by
  rcases do_call_trace_cases C net st n url data method ct ff tag with h | ⟨u, v, h⟩ <;>
    rw [h] <;> simp [List.countP, List.countP.go, isReloginEntry]

/-- A do_call records no login entry. -/
theorem do_call_countP_loginEntry (C : Constants) (net : Nat → NetOutcome)
    (st : ClientState) (n : Nat) (url : String) (data : Option ReqData)
    (method : Option String) (ct : Nat) (ff : Bool) (tag : SendTag) :
    ((do_call C net st n url data method ct ff tag).2.1).countP isLoginEntry = 0 := by
  rcases do_call_trace_cases C net st n url data method ct ff tag with h | ⟨u, v, h⟩ <;>
    rw [h] <;> simp [List.countP, List.countP.go, isLoginEntry]

/-- Every do_call trace respects the gate discipline. -/
theorem do_call_gateOK (C : Constants) (net : Nat → NetOutcome)
    (st : ClientState) (n : Nat) (url : String) (data : Option ReqData)
    (method : Option String) (ct : Nat) (ff : Bool) (tag : SendTag) :
    gateOK (do_call C net st n url data method ct ff tag).2.1 = true := by
  rcases do_call_trace_cases C net st n url data method ct ff tag with h | ⟨u, v, h⟩ <;>
    rw [h] <;> rfl

/-- Gate discipline is preserved under concatenation of traces. -/
theorem gateOK_append : ∀ {a b : List Event},
    gateOK a = true → gateOK b = true → gateOK (a ++ b) = true := by
  intro a
  induction a using gateOK.induct with
  | _ => intro b ha hb <;> simp_all [gateOK]

/-- One gate step preserves the permit accounting: free permits plus
in-flight sends always total the capacity. -/
theorem gateStep_inv {s t : GateState} (h : GateStep s t)
    (hs : s.avail + inFlightCount s = semaphoreCapacity) :
    t.avail + inFlightCount t = semaphoreCapacity := by
  cases h with
  | acquire avail l r hpos =>
      simp [inFlightCount, List.countP_append, List.countP_cons, isInFlight] at hs ⊢
      omega
  | release avail l r =>
      simp [inFlightCount, List.countP_append, List.countP_cons, isInFlight] at hs ⊢
      omega

/-- In every gate state reachable from an initial state, free permits
plus in-flight sends total the capacity. -/
theorem gate_reachable_accounting {s0 s : GateState} (h0 : GateInit s0)
    (h : Relation.ReflTransGen GateStep s0 s) :
    s.avail + inFlightCount s = semaphoreCapacity := by
  induction h with
  | refl =>
      have hc : inFlightCount s0 = 0 := by
        refine List.countP_eq_zero.mpr ?_
        intro p hp
        rw [h0.2 p hp]
        simp [isInFlight]
      rw [hc, h0.1]
      omega

  | tail _ hstep ih => exact gateStep_inv hstep ih

/-- Predicates that ignore every event kind a login or logout can
produce: gate events, sends not attributed to call, and the login
error log. -/
def loopSafe (p : Event → Bool) : Prop :=
  p Event.acquire = false ∧ p Event.release = false ∧
  (∀ t u d v, t ≠ SendTag.fromCall → p (Event.send t u d v) = false) ∧
  (∀ u r, p (Event.loginError u r) = false)

/-- A loop-safe predicate counts nothing in a non-call do_call trace. -/
theorem countP_bracket_zero (p : Event → Bool) (hp : loopSafe p)
    (tag : SendTag) (htag : tag ≠ SendTag.fromCall) (u : String)
    (d : Option ReqData) (v : Verb) :
    ([Event.acquire, Event.send tag u d v, Event.release]).countP p = 0 := by
  simp [List.countP_cons, hp.1, hp.2.1, hp.2.2.1 tag u d v htag]

/-- A loop-safe predicate counts nothing in a logout trace. -/
theorem logout_countP (C : Constants) (net : Nat → NetOutcome) (st : ClientState)
    (n : Nat) (p : Event → Bool) (hp : loopSafe p) :
    ((logout C net st n).2.1).countP p = 0 := by
  unfold logout
  split
  · rfl
  · split
    next n1 tr e heq =>
      obtain ⟨htr, _⟩ := do_call_err_trace C net st n _ _ _ _ _ _ n1 tr e heq
      simp [htr]
    next n1 tr res heq =>
      obtain ⟨u, v, htr, _⟩ := do_call_ok_trace C net st n _ _ _ _ _ _ n1 tr res heq
      split <;>
        simpa [htr] using
          countP_bracket_zero p hp SendTag.fromLogout (by simp) u none v

/-- Equation form of logout_countP, convenient after a split. -/
theorem logout_countP_eq (C : Constants) (net : Nat → NetOutcome) (st : ClientState)
    (n n2 : Nat) (tr2 : List Event) (r : Except PyErr Unit) (p : Event → Bool)
    (heq : logout C net st n = (n2, tr2, r)) (hp : loopSafe p) :
    tr2.countP p = 0 := by
  have := logout_countP C net st n p hp
  rw [heq] at this
  exact this

/-- A loop-safe predicate counts nothing in a login_loop trace. -/
theorem login_loop_countP (cfg : Config) (C : Constants) (net : Nat → NetOutcome)
    (urls : List String) (st : ClientState) (n : Nat)
    (p : Event → Bool) (hp : loopSafe p) :
    ((login_loop cfg C net urls st n).2.2.1).countP p = 0 := by
  induction urls generalizing st n with
  | nil => rfl
  | cons item_url rest ih =>
      unfold login_loop
      dsimp only
      split
      next n1 tr1 e heq =>
        obtain ⟨htr, _⟩ := do_call_err_trace C net _ n _ _ _ _ _ _ n1 tr1 e heq
        simp [htr]
      next n1 tr1 res heq =>
        obtain ⟨u, v, htr, _⟩ := do_call_ok_trace C net _ n _ _ _ _ _ _ n1 tr1 res heq
        have hbr : tr1.countP p = 0 := by
          simpa [htr] using
            countP_bracket_zero p hp SendTag.fromLogin (by simp) u _ v
        split
        · simp [List.countP_append, List.countP_cons, hbr, hp.2.2.2,
            ih (init_http_head st) n1]
        · split
          · simp [List.countP_append, List.countP_cons, hbr, hp.2.2.2]
          · split
            · simp [hbr]
            · split
              · split
                next n2 tr2 e2 heq2 =>
                  have h2 : tr2.countP p = 0 :=
                    logout_countP_eq C net _ n1 n2 tr2 _ p heq2 hp
                  simp [List.countP_append, hbr, h2]
                next n2 tr2 u2 heq2 =>
                  have h2 : tr2.countP p = 0 :=
                    logout_countP_eq C net _ n1 n2 tr2 _ p heq2 hp
                  simp [List.countP_append, hbr, h2]
              · simp [hbr]

/-- A loop-safe predicate that also ignores the login entry marker
counts nothing in a login trace. -/
theorem login_countP (cfg : Config) (C : Constants) (net : Nat → NetOutcome)
    (st : ClientState) (n : Nat) (p : Event → Bool) (hp : loopSafe p)
    (hpl : p Event.loginEntry = false) :
    ((login cfg C net st n).2.2.1).countP p = 0 := by
  unfold login
  split <;>
    next heq =>
      have := login_loop_countP cfg C net cfg.san_address st n p hp
      rw [heq] at this
      simp [List.countP_cons, hpl, this]

/-- Every logout trace respects the gate discipline. -/
theorem logout_gateOK (C : Constants) (net : Nat → NetOutcome) (st : ClientState)
    (n : Nat) : gateOK (logout C net st n).2.1 = true := by
  unfold logout
  split
  · rfl
  · split
    next n1 tr e heq =>
      obtain ⟨htr, _⟩ := do_call_err_trace C net st n _ _ _ _ _ _ n1 tr e heq
      simp [htr, gateOK]
    next n1 tr res heq =>
      obtain ⟨u, v, htr, _⟩ := do_call_ok_trace C net st n _ _ _ _ _ _ n1 tr res heq
      split <;> simp [htr, gateOK]

/-- Equation form of logout_gateOK. -/
theorem logout_gateOK_eq (C : Constants) (net : Nat → NetOutcome) (st : ClientState)
    (n n2 : Nat) (tr2 : List Event) (r : Except PyErr Unit)
    (heq : logout C net st n = (n2, tr2, r)) : gateOK tr2 = true := by
  have := logout_gateOK C net st n
  rw [heq] at this
  exact this

/-- Every login_loop trace respects the gate discipline. -/
theorem login_loop_gateOK (cfg : Config) (C : Constants) (net : Nat → NetOutcome)
    (urls : List String) (st : ClientState) (n : Nat) :
    gateOK (login_loop cfg C net urls st n).2.2.1 = true := by
  induction urls generalizing st n with
  | nil => rfl
  | cons item_url rest ih =>
      unfold login_loop
      dsimp only
      split
      next n1 tr1 e heq =>
        obtain ⟨htr, _⟩ := do_call_err_trace C net _ n _ _ _ _ _ _ n1 tr1 e heq
        simp [htr, gateOK]
      next n1 tr1 res heq =>
        obtain ⟨u, v, htr, _⟩ := do_call_ok_trace C net _ n _ _ _ _ _ _ n1 tr1 res heq
        have hbr : gateOK tr1 = true := by simp [htr, gateOK]
        split
        · refine gateOK_append hbr ?_
          simpa [gateOK] using ih (init_http_head st) n1
        · split
          · exact gateOK_append hbr (by rfl)
          · split
            · exact hbr
            · split
              · split
                next n2 tr2 e2 heq2 =>
                  exact gateOK_append hbr (logout_gateOK_eq C net _ n1 n2 tr2 _ heq2)
                next n2 tr2 u2 heq2 =>
                  exact gateOK_append hbr (logout_gateOK_eq C net _ n1 n2 tr2 _ heq2)
              · exact hbr

/-- Every login trace respects the gate discipline. -/
theorem login_gateOK (cfg : Config) (C : Constants) (net : Nat → NetOutcome)
    (st : ClientState) (n : Nat) :
    gateOK (login cfg C net st n).2.2.1 = true := by
  unfold login
  split <;>
    next heq =>
      have := login_loop_gateOK cfg C net cfg.san_address st n
      rw [heq] at this
      simpa [gateOK] using this

/-- Equation form of login_gateOK. -/
theorem login_gateOK_eq (cfg : Config) (C : Constants) (net : Nat → NetOutcome)
    (st st1 : ClientState) (n n1 : Nat) (tr : List Event) (r : Except PyErr String)
    (heq : login cfg C net st n = (st1, n1, tr, r)) : gateOK tr = true := by
  have := login_gateOK cfg C net st n
  rw [heq] at this
  exact this

/-- Every relogin trace respects the gate discipline. -/
theorem relogin_gateOK (cfg : Config) (C : Constants) (net : Nat → NetOutcome)
    (st : ClientState) (n : Nat) (old_token : Option String) :
    gateOK (relogin cfg C net st n old_token).2.2.1 = true := by
  unfold relogin
  dsimp only
  split
  · split <;>
      next st1 n1 tr r heq =>
        simpa [gateOK] using login_gateOK_eq cfg C net st st1 n n1 tr _ heq
  · split
    · rfl
    · split
      · split <;>
          next st1 n1 tr r heq =>
            simpa [gateOK] using login_gateOK_eq cfg C net st st1 n n1 tr _ heq
      · rfl

/-- Equation form of relogin_gateOK. -/
theorem relogin_gateOK_eq (cfg : Config) (C : Constants) (net : Nat → NetOutcome)
    (st st2 : ClientState) (n n2 : Nat) (old_token : Option String)
    (tr2 : List Event) (r : Except PyErr Bool)
    (heq : relogin cfg C net st n old_token = (st2, n2, tr2, r)) : gateOK tr2 = true := by
  have := relogin_gateOK cfg C net st n old_token
  rw [heq] at this
  exact this

/-- isCallSend ignores every event a login or logout can produce. -/
theorem loopSafe_isCallSend : loopSafe isCallSend := by
  refine ⟨rfl, rfl, ?_, fun u r => rfl⟩
  intro t u d v ht
  cases t with
  | fromCall => exact absurd rfl ht
  | fromLogin => rfl
  | fromLogout => rfl

/-- isReloginEntry ignores every event a login or logout can produce. -/
theorem loopSafe_isReloginEntry : loopSafe isReloginEntry := by
  refine ⟨rfl, rfl, ?_, fun u r => rfl⟩
  intro t u d v _
  cases t <;> rfl

/-- isLoginEntry ignores every event a login or logout can produce. -/
theorem loopSafe_isLoginEntry : loopSafe isLoginEntry := by
  refine ⟨rfl, rfl, ?_, fun u r => rfl⟩
  intro t u d v _
  cases t <;> rfl

/-- Counting facts about any do_call trace, in equation form. -/
theorem do_call_counts_eq (C : Constants) (net : Nat → NetOutcome) (st : ClientState)
    (n : Nat) (url : String) (data : Option ReqData) (method : Option String)
    (ct : Nat) (ff : Bool) (tag : SendTag) (n1 : Nat) (tr : List Event)
    (r : Except PyErr RestResult)
    (heq : do_call C net st n url data method ct ff tag = (n1, tr, r)) :
    tr.countP isCallSend ≤ 1 ∧ tr.countP isReloginEntry = 0 ∧
    tr.countP isLoginEntry = 0 ∧ gateOK tr = true ∧
    tr.countP isAcquire = tr.countP isRelease := by
  have h1 := do_call_countP_callSend_le C net st n url data method ct ff tag
  have h2 := do_call_countP_reloginEntry C net st n url data method ct ff tag
  have h3 := do_call_countP_loginEntry C net st n url data method ct ff tag
  have h4 := do_call_gateOK C net st n url data method ct ff tag
  have h5 := do_call_trace_cases C net st n url data method ct ff tag
  rw [heq] at h1 h2 h3 h4 h5
  dsimp only at h1 h2 h3 h4 h5
  refine ⟨h1, h2, h3, h4, ?_⟩
  rcases h5 with h | ⟨u, v, h⟩ <;> simp [h, List.countP_cons, isAcquire, isRelease]

/-- Every relogin trace holds exactly one relogin entry and no
call-attributed send. -/
theorem relogin_counts (cfg : Config) (C : Constants) (net : Nat → NetOutcome)
    (st : ClientState) (n : Nat) (old_token : Option String) :
    ((relogin cfg C net st n old_token).2.2.1).countP isCallSend = 0 ∧
    ((relogin cfg C net st n old_token).2.2.1).countP isReloginEntry = 1 := by
  have hlc : ∀ st0 n0, ((login cfg C net st0 n0).2.2.1).countP isCallSend = 0 :=
    fun st0 n0 => login_countP cfg C net st0 n0 isCallSend loopSafe_isCallSend rfl
  have hlr : ∀ st0 n0, ((login cfg C net st0 n0).2.2.1).countP isReloginEntry = 0 :=
    fun st0 n0 => login_countP cfg C net st0 n0 isReloginEntry loopSafe_isReloginEntry rfl
  unfold relogin
  dsimp only
  split
  · split <;>
      next st1 n1 tr _ heq =>
        constructor
        · have := hlc st n
          rw [heq] at this
          simpa [List.countP_cons, isCallSend] using this
        · have := hlr st n
          rw [heq] at this
          simpa [List.countP_cons, isReloginEntry] using this
  · split
    · exact ⟨rfl, rfl⟩
    · split
      · split <;>
          next st1 n1 tr _ heq =>
            constructor
            · have := hlc st n
              rw [heq] at this
              simpa [List.countP_cons, isCallSend] using this
            · have := hlr st n
              rw [heq] at this
              simpa [List.countP_cons, isReloginEntry] using this
      · exact ⟨rfl, rfl⟩

/-- Equation form of relogin_counts. -/
theorem relogin_counts_eq (cfg : Config) (C : Constants) (net : Nat → NetOutcome)
    (st st2 : ClientState) (n n2 : Nat) (old_token : Option String)
    (tr2 : List Event) (r : Except PyErr Bool)
    (heq : relogin cfg C net st n old_token = (st2, n2, tr2, r)) :
    tr2.countP isCallSend = 0 ∧ tr2.countP isReloginEntry = 1 := by
  have := relogin_counts cfg C net st n old_token
  rw [heq] at this
  exact this

/-- A login trace always starts with the login entry marker. -/
theorem login_trace_head (cfg : Config) (C : Constants) (net : Nat → NetOutcome)
    (st : ClientState) (n : Nat) :
    ∃ tr0, (login cfg C net st n).2.2.1 = Event.loginEntry :: tr0 := by
  unfold login
  split <;> exact ⟨_, rfl⟩

/-- In a gate-disciplined trace every acquired permit is released. -/
theorem gateOK_balanced : ∀ {tr : List Event}, gateOK tr = true →
    tr.countP isAcquire = tr.countP isRelease := by
  intro tr
  induction tr using gateOK.induct with
  | _ =>
      intro h <;>
      simp_all [gateOK, List.countP_cons, isAcquire, isRelease]

/-- An invalid method is one outside {None, GET, POST, PUT, DELETE};
pick_func rejects exactly those. -/
theorem pick_func_eq_none (method : Option String)
    (h : method ∉ [none, some "GET", some "POST", some "PUT", some "DELETE"]) :
    pick_func method = none := by
  unfold pick_func
  split
  · simp at h
  · simp at h
  · simp at h
  · simp at h
  · simp at h
  · rfl

/-- Configuration used for concrete evaluations: three endpoints. -/
def wCfg : Config :=
  { san_address := ["A/", "B/", "C/"], san_user := "u", san_password := "p", san_scope := "0" }

/-- Configuration used for concrete evaluations: one endpoint. -/
def wCfg1 : Config :=
  { san_address := ["A/"], san_user := "u", san_password := "p", san_scope := "0" }

/-- Modelled from the spec: concrete stand-ins for the sentinel codes,
the benign pass-through whitelist and the expired-password account
states, used only to instantiate the parametric theorems on concrete
inputs. -/
def wConsts : Constants :=
  { ERROR_CONNECT_TO_SERVER := -403, ERROR_UNAUTHORIZED_TO_SERVER := -401,
    RELOGIN_ERROR_PASS := [77], PWD_EXPIRED_OR_INITIAL := [3, 4],
    SOCKET_TIMEOUT := 52, LOGIN_SOCKET_TIMEOUT := 4 }

/-- A parsed 2xx response with the given code and data. -/
def okOutcome (c : Int) (d : Option RestData) : NetOutcome :=
  NetOutcome.ok { error := { code := c, description := "d" }, data := d }

/-- A login data body with a healthy account state. -/
def wData (dev tok : String) : RestData :=
  { deviceid := dev, iBaseToken := tok, accountstate := 1, extra := "" }

/-- A client state with an authenticated session. -/
def stActive : ClientState :=
  { url := some "C/dev", session := some { iBaseToken := some "tok" }, device_id := some "dev" }

/-- A state whose session is gone while a base url is not set. -/
def stUrlUnset : ClientState :=
  { url := none, session := some { iBaseToken := some "t" }, device_id := none }

/-- A network on which every send raises. -/
def netAllExc : Nat → NetOutcome := fun _ => NetOutcome.exc

/-- C10: in do_call, method None is dispatched exactly like POST and
the request is sent; any method outside {None, GET, POST, PUT, DELETE}
raises a fatal configuration error immediately, with no semaphore
acquire, no send, and no network outcome consumed. -/
theorem C10_do_call_method_dispatch :
    (∀ (C : Constants) (net : Nat → NetOutcome) (st : ClientState) (n : Nat)
       (url : String) (data : Option ReqData) (method : Option String)
       (ct : Nat) (ff : Bool) (tag : SendTag),
       method ∉ [none, some "GET", some "POST", some "PUT", some "DELETE"] →
       do_call C net st n url data method ct ff tag =
         (n, [], Except.error (PyErr.volumeBackend
           ("Request method " ++ methodText method ++ " is invalid."))))
    ∧ (∀ (C : Constants) (net : Nat → NetOutcome) (st : ClientState) (n : Nat)
       (url : String) (data : Option ReqData) (ct : Nat) (ff : Bool) (tag : SendTag),
       do_call C net st n url data none ct ff tag =
         do_call C net st n url data (some "POST") ct ff tag)
    ∧ (∀ (C : Constants) (net : Nat → NetOutcome) (st : ClientState) (n : Nat)
       (url : String) (data : Option ReqData) (ct : Nat) (ff : Bool) (tag : SendTag)
       (s : Session), st.session = some s →
       (do_call C net st n url data none ct ff tag).2.1 =
         [Event.acquire, Event.send tag (effUrl st url) data Verb.post, Event.release]) := by
  refine ⟨?_, ?_, ?_⟩
  · intro C net st n url data method ct ff tag h
    unfold do_call
    rw [pick_func_eq_none method h]
  · intro C net st n url data ct ff tag
    rfl
  · intro C net st n url data ct ff tag s hsess
    unfold do_call
    rw [hsess]
    dsimp only [pick_func]
    cases net n <;> rfl

/-- C10 witness: a HEAD request fails immediately without consuming a
network outcome, and a method-None request with an active session
sends a POST inside one semaphore bracket. -/
theorem C10_witness :
    (some "HEAD" ∉ [none, some "GET", some "POST", some "PUT", some "DELETE"]
      ∧ do_call wConsts netAllExc stActive 0 "/lun" none (some "HEAD") 52 false
          SendTag.fromCall =
        (0, [], Except.error (PyErr.volumeBackend "Request method HEAD is invalid.")))
    ∧ (do_call wConsts netAllExc stActive 0 "/lun" none none 52 false
          SendTag.fromCall).2.1 =
        [Event.acquire, Event.send SendTag.fromCall "C/dev/lun" none Verb.post,
         Event.release] := by
  refine ⟨⟨by decide, ?_⟩, ?_⟩
  · exact C10_do_call_method_dispatch.1 wConsts netAllExc stActive 0 "/lun" none
      (some "HEAD") 52 false SendTag.fromCall (by decide)
  · exact C10_do_call_method_dispatch.2.2 wConsts netAllExc stActive 0 "/lun" none
      52 false SendTag.fromCall { iBaseToken := some "tok" } rfl

/-- C2: when the first send of call returns a non-zero error code that
is neither the connect-failure nor the unauthorized sentinel, call
returns that outcome unmodified after exactly one send, and neither
relogin nor login is entered. -/
theorem C2_domain_error_single_send (cfg : Config) (C : Constants)
    (net : Nat → NetOutcome) (st : ClientState) (n : Nat) (url : String)
    (data : Option ReqData) (method : Option String) (ff : Bool)
    (b : String) (s : Session) (n1 : Nat) (tr1 : List Event) (res1 : RestResult)
    (hurl : st.url = some b) (hsess : st.session = some s)
    (hdc : do_call C net st n url data method C.SOCKET_TIMEOUT ff SendTag.fromCall =
      (n1, tr1, Except.ok res1))
    (hnz : res1.error.code ≠ 0)
    (hcf : res1.error.code ≠ C.ERROR_CONNECT_TO_SERVER)
    (hua : res1.error.code ≠ C.ERROR_UNAUTHORIZED_TO_SERVER) :
    call cfg C net st n url data method ff = (st, n1, tr1, Except.ok res1)
    ∧ tr1.countP isSend = 1
    ∧ tr1.countP isReloginEntry = 0
    ∧ tr1.countP isLoginEntry = 0 := by
  obtain ⟨u, v, htr, _⟩ :=
    do_call_ok_trace C net st n url data method C.SOCKET_TIMEOUT ff SendTag.fromCall
      n1 tr1 res1 hdc
  refine ⟨?_, by simp [htr, List.countP_cons, isSend],
    by simp [htr, List.countP_cons, isReloginEntry],
    by simp [htr, List.countP_cons, isLoginEntry]⟩
  unfold call
  rw [hurl, hsess]
  dsimp only
  rw [hdc]
  dsimp only
  rw [if_neg]
  intro h
  rcases h with h | h
  · exact hcf h
  · exact hua h

/-- C2 witness: a business error code 5 is handed back untouched after
one send, with no relogin and no login. -/
theorem C2_witness :
    call wCfg wConsts (fun _ => okOutcome 5 none) stActive 0 "/lun" none
        (some "GET") false =
      (stActive, 1,
       [Event.acquire, Event.send SendTag.fromCall "C/dev/lun" none Verb.get,
        Event.release],
       Except.ok { error := { code := 5, description := "d" }, data := none }) := by
  have h := C2_domain_error_single_send wCfg wConsts (fun _ => okOutcome 5 none)
    stActive 0 "/lun" none (some "GET") false "C/dev" { iBaseToken := some "tok" }
    1 [Event.acquire, Event.send SendTag.fromCall "C/dev/lun" none Verb.get,
       Event.release]
    { error := { code := 5, description := "d" }, data := none }
    rfl rfl rfl (by decide) (by decide) (by decide)
  exact h.1

/-- C3: when a session is active and its current token differs from
the prior token, relogin is a no-op success: it returns true at once,
invokes no login, and sends nothing. -/
theorem C3_relogin_dedup (cfg : Config) (C : Constants) (net : Nat → NetOutcome)
    (st : ClientState) (n : Nat) (old_token : Option String)
    (b : String) (s : Session)
    (hurl : st.url = some b) (hsess : st.session = some s)
    (hne : old_token ≠ s.iBaseToken) :
    relogin cfg C net st n old_token = (st, n, [Event.reloginEntry], Except.ok true)
    ∧ ([Event.reloginEntry] : List Event).countP isLoginEntry = 0
    ∧ ([Event.reloginEntry] : List Event).countP isSend = 0 := by
  refine ⟨?_, rfl, rfl⟩
  unfold relogin
  rw [hurl, hsess]
  dsimp only
  rw [if_neg hne]

/-- C3 witness: with current token tok and prior token other, relogin
returns success immediately and leaves the state untouched. -/
theorem C3_witness :
    relogin wCfg wConsts netAllExc stActive 0 (some "other") =
      (stActive, 0, [Event.reloginEntry], Except.ok true) :=
  (C3_relogin_dedup wCfg wConsts netAllExc stActive 0 (some "other") "C/dev"
    { iBaseToken := some "tok" } rfl rfl (by decide)).1

/-- State after the login loop has run through a list of endpoints
without adopting one: unchanged if the list was empty, otherwise left
as the last init_http_head put it. -/
def iterReset (urls : List String) (st : ClientState) : ClientState :=
  match urls with
  | [] => st
  | _ :: _ => init_http_head st

/-- init_http_head is idempotent. -/
theorem init_http_head_idem (st : ClientState) :
    init_http_head (init_http_head st) = init_http_head st := rfl

/-- Running the reset of a further iteration over an already reset
state changes nothing. -/
theorem iterReset_init (urls : List String) (st : ClientState) :
    iterReset urls (init_http_head st) = init_http_head st := by
  cases urls <;> rfl

/-- One failing head iteration of login_loop: the endpoint's failure
is logged after one send, and the loop continues on the tail from the
reset state with the next network outcome. -/
theorem login_loop_fail_head (cfg : Config) (C : Constants) (net : Nat → NetOutcome)
    (item_url : String) (rest : List String) (st : ClientState) (n : Nat)
    (hfail : loginRespFails (net n) = true) :
    ∃ res, login_loop cfg C net (item_url :: rest) st n =
      ((login_loop cfg C net rest (init_http_head st) (n + 1)).1,
       (login_loop cfg C net rest (init_http_head st) (n + 1)).2.1,
       Event.acquire ::
         Event.send SendTag.fromLogin (item_url ++ "xx/sessions")
           (some (ReqData.loginReq cfg.san_user cfg.san_password cfg.san_scope))
           Verb.post ::
         Event.release ::
         Event.loginError item_url res ::
         (login_loop cfg C net rest (init_http_head st) (n + 1)).2.2.1,
       (login_loop cfg C net rest (init_http_head st) (n + 1)).2.2.2) := by
  simp only [login_loop]
  unfold do_call
  dsimp only [pick_func, init_http_head, effUrl]
  cases hnet : net n with
  | exc =>
      refine ⟨{ error := { code := C.ERROR_CONNECT_TO_SERVER,
                           description := "Connect to server error." },
                data := none }, ?_⟩
      dsimp only
      rw [if_pos (Or.inr rfl)]
      rfl
  | httpError status description =>
      refine ⟨{ error := { code := status, description := description },
                data := none }, ?_⟩
      dsimp only
      rw [if_pos (Or.inr rfl)]
      rfl
  | ok r =>
      rw [hnet] at hfail
      have hcond : r.error.code ≠ 0 ∨ r.data = none := by
        simp only [loginRespFails, Bool.or_eq_true] at hfail
        rcases hfail with h | h
        · left
          simpa using h
        · right
          simpa using h
      refine ⟨r, ?_⟩
      dsimp only
      rw [if_pos hcond]
      rfl

/-- When every network outcome fails authentication, login_loop walks
the whole endpoint list, consumes one outcome per endpoint, logs each
failure, adopts nothing, and leaves the state as the last
init_http_head put it. -/
theorem login_loop_all_fail (cfg : Config) (C : Constants) (net : Nat → NetOutcome)
    (urls : List String) (st : ClientState) (n : Nat)
    (hfail : ∀ k, loginRespFails (net k) = true) :
    (login_loop cfg C net urls st n).1 = iterReset urls st
    ∧ (login_loop cfg C net urls st n).2.1 = n + urls.length
    ∧ (login_loop cfg C net urls st n).2.2.2 = Except.ok none
    ∧ ∀ u ∈ urls, ∃ r, Event.loginError u r ∈ (login_loop cfg C net urls st n).2.2.1 := by
  induction urls generalizing st n with
  | nil => exact ⟨rfl, rfl, rfl, by simp⟩
  | cons item_url rest ih =>
      obtain ⟨res, heq⟩ := login_loop_fail_head cfg C net item_url rest st n (hfail n)
      rw [heq]
      obtain ⟨ih1, ih2, ih3, ih4⟩ := ih (init_http_head st) (n + 1)
      refine ⟨?_, ?_, ih3, ?_⟩
      · rw [ih1, iterReset_init]
        rfl
      · dsimp only
        rw [ih2]
        simp [List.length_cons]
        omega
      · intro u hu
        rcases List.mem_cons.mp hu with h | h
        · subst h
          exact ⟨res, by simp⟩
        · obtain ⟨r, hr⟩ := ih4 u h
          exact ⟨r, by simp [hr]⟩

/-- When every network outcome fails authentication and at least one
endpoint is configured, login raises the fixed exhaustion error, logs
a failure reason for every endpoint, and leaves the base url unset. -/
theorem login_all_fail (cfg : Config) (C : Constants) (net : Nat → NetOutcome)
    (st : ClientState) (n : Nat)
    (hne : cfg.san_address ≠ [])
    (hfail : ∀ k, loginRespFails (net k) = true) :
    (login cfg C net st n).2.2.2 =
      Except.error (PyErr.volumeBackend "Failed to login with all rest URLs.")
    ∧ (login cfg C net st n).1 =
      { url := none, session := some { iBaseToken := none }, device_id := st.device_id }
    ∧ (login cfg C net st n).2.1 = n + cfg.san_address.length
    ∧ ∀ u ∈ cfg.san_address, ∃ r,
        Event.loginError u r ∈ (login cfg C net st n).2.2.1 := by
  obtain ⟨h1, h2, h3, h4⟩ := login_loop_all_fail cfg C net cfg.san_address st n hfail
  have hreset : iterReset cfg.san_address st =
      { url := none, session := some { iBaseToken := none }, device_id := st.device_id } := by
    rcases haddr : cfg.san_address with _ | ⟨a, rest⟩
    · exact absurd haddr hne
    · rfl
  unfold login
  rcases hl : login_loop cfg C net cfg.san_address st n with ⟨st1, n1, tr, v⟩
  rw [hl] at h1 h2 h3 h4
  dsimp only at h1 h2 h3 h4 ⊢
  subst h3
  dsimp only
  refine ⟨rfl, ?_, ?_, ?_⟩
  · rw [h1, hreset]
  · exact h2
  · intro u hu
    obtain ⟨r, hr⟩ := h4 u hu
    exact ⟨r, by simp [hr]⟩

/-- A network answering every login attempt with a business error
whose description is reasonA. -/
def netReasonA : Nat → NetOutcome :=
  fun _ => NetOutcome.ok { error := { code := 5, description := "reasonA" }, data := none }

/-- A network answering every login attempt with a business error
whose description is reasonB. -/
def netReasonB : Nat → NetOutcome :=
  fun _ => NetOutcome.ok { error := { code := 5, description := "reasonB" }, data := none }

/-- C4 counterexample: with the base url unset and the current token
already different from the prior token, relogin does not return
success without re-authenticating: it enters login (and here, with the
endpoint unreachable, reports failure). -/
theorem C4_counterexample :
    (relogin wCfg1 wConsts netAllExc stUrlUnset 0 (some "t2")).2.2.2 = Except.ok false
    ∧ Event.loginEntry ∈ (relogin wCfg1 wConsts netAllExc stUrlUnset 0 (some "t2")).2.2.1 := by
  decide

/-- C4 amended: when the base url is unset, relogin always proceeds to
re-authenticate — it invokes login regardless of the prior token, and
returns success exactly when login succeeds. -/
theorem C4_relogin_url_unset_reauthenticates (cfg : Config) (C : Constants)
    (net : Nat → NetOutcome) (st : ClientState) (n : Nat) (old_token : Option String)
    (hurl : st.url = none) :
    (∀ st1 n1 tr d, login cfg C net st n = (st1, n1, tr, Except.ok d) →
      relogin cfg C net st n old_token =
        (st1, n1, Event.reloginEntry :: tr, Except.ok true))
    ∧ (∀ st1 n1 tr e, login cfg C net st n = (st1, n1, tr, Except.error e) →
      relogin cfg C net st n old_token =
        (st1, n1, Event.reloginEntry :: tr, Except.ok false))
    ∧ Event.loginEntry ∈ (relogin cfg C net st n old_token).2.2.1 := by
  refine ⟨?_, ?_, ?_⟩
  · intro st1 n1 tr d h
    unfold relogin
    rw [hurl]
    dsimp only
    rw [h]
  · intro st1 n1 tr e h
    unfold relogin
    rw [hurl]
    dsimp only
    rw [h]
  · obtain ⟨tr0, htr⟩ := login_trace_head cfg C net st n
    rcases hl : login cfg C net st n with ⟨st1, n1, tr, v⟩
    rw [hl] at htr
    dsimp only at htr
    unfold relogin
    rw [hurl]
    dsimp only
    rw [hl]
    cases v <;> simp [htr]

/-- C4 witness: from the pristine state the url is unset; relogin
invokes login, which here fails, so relogin reports false. -/
theorem C4_witness :
    (relogin wCfg1 wConsts netAllExc initialState 0 (some "x")).2.2.2 =
      Except.ok false := by
  rw [(C4_relogin_url_unset_reauthenticates wCfg1 wConsts netAllExc initialState 0
    (some "x") rfl).2.1 _ _ _ _ rfl]

/-- C5 counterexample: a relogin whose login attempt fails does report
false, but the Session is not left unchanged: the base url has been
cleared by the failed attempt. -/
theorem C5_counterexample :
    (relogin wCfg1 wConsts netAllExc stActive 0 (some "tok")).2.2.2 = Except.ok false
    ∧ (relogin wCfg1 wConsts netAllExc stActive 0 (some "tok")).1 ≠ stActive := by
  decide

/-- C5 amended: when relogin proceeds to re-authenticate (token still
equal) and the login attempt fails on every endpoint, the failure is
reported to the caller (false), but the Session is left reset by the
failed attempt — base url unset and a fresh header set without auth
token — rather than unchanged. -/
theorem C5_relogin_failed_login_resets (cfg : Config) (C : Constants)
    (net : Nat → NetOutcome) (st : ClientState) (n : Nat) (old_token : Option String)
    (b : String) (s : Session)
    (hurl : st.url = some b) (hsess : st.session = some s)
    (htok : old_token = s.iBaseToken)
    (hne : cfg.san_address ≠ [])
    (hfail : ∀ k, loginRespFails (net k) = true) :
    (relogin cfg C net st n old_token).2.2.2 = Except.ok false
    ∧ (relogin cfg C net st n old_token).1 =
      { url := none, session := some { iBaseToken := none },
        device_id := st.device_id } := by
  obtain ⟨h1, h2, h3, h4⟩ := login_all_fail cfg C net st n hne hfail
  rcases hl : login cfg C net st n with ⟨st1, n1, tr, v⟩
  rw [hl] at h1 h2
  dsimp only at h1 h2
  unfold relogin
  rw [hurl, hsess]
  dsimp only
  rw [if_pos htok, hl]
  subst h1
  exact ⟨rfl, h2⟩

/-- C5 witness: active session, matching token, unreachable endpoint:
relogin returns false and the state is the reset one. -/
theorem C5_witness :
    (relogin wCfg1 wConsts netAllExc stActive 0 (some "tok")).1 =
      { url := none, session := some { iBaseToken := none },
        device_id := some "dev" } :=
  (C5_relogin_failed_login_resets wCfg1 wConsts netAllExc stActive 0 (some "tok")
    "C/dev" { iBaseToken := some "tok" } rfl rfl rfl (by decide) (fun _ => rfl)).2

/-- C7 counterexample: two all-endpoints-fail runs whose per-endpoint
failure reasons differ produce the very same exhaustion error — the
error does not carry the per-endpoint failure reasons (they appear
only in the log trace, which differs). -/
theorem C7_counterexample :
    (login wCfg1 wConsts netReasonA initialState 0).2.2.2 =
      Except.error (PyErr.volumeBackend "Failed to login with all rest URLs.")
    ∧ (login wCfg1 wConsts netReasonB initialState 0).2.2.2 =
      Except.error (PyErr.volumeBackend "Failed to login with all rest URLs.")
    ∧ (login wCfg1 wConsts netReasonA initialState 0).2.2.1 ≠
      (login wCfg1 wConsts netReasonB initialState 0).2.2.1 := by
  decide

/-- C7 amended: when every endpoint fails to authenticate, login
raises the fixed-message exhaustion error (per-endpoint reasons are
only logged, one entry per endpoint, not carried in the error), and
the Session stays inert: its base url is None afterward. -/
theorem C7_login_exhaustion (cfg : Config) (C : Constants) (net : Nat → NetOutcome)
    (st : ClientState) (n : Nat)
    (hne : cfg.san_address ≠ [])
    (hfail : ∀ k, loginRespFails (net k) = true) :
    (login cfg C net st n).2.2.2 =
      Except.error (PyErr.volumeBackend "Failed to login with all rest URLs.")
    ∧ (login cfg C net st n).1.url = none
    ∧ ∀ u ∈ cfg.san_address, ∃ r,
        Event.loginError u r ∈ (login cfg C net st n).2.2.1 := by
  obtain ⟨h1, h2, h3, h4⟩ := login_all_fail cfg C net st n hne hfail
  exact ⟨h1, by rw [h2], h4⟩

/-- C7 witness: three unreachable endpoints: the exhaustion error is
raised and the base url stays unset. -/
theorem C7_witness :
    (login wCfg wConsts netAllExc initialState 0).2.2.2 =
      Except.error (PyErr.volumeBackend "Failed to login with all rest URLs.")
    ∧ (login wCfg wConsts netAllExc initialState 0).1.url = none := by
  have h := C7_login_exhaustion wCfg wConsts netAllExc initialState 0
    (by decide) (fun _ => rfl)
  exact ⟨h.1, h.2.1⟩

/-- A successful head iteration of login_loop: the first endpoint
whose response has code 0, a data body and a healthy account state is
adopted after one send, and the loop stops at once. -/
theorem login_loop_success_head (cfg : Config) (C : Constants) (net : Nat → NetOutcome)
    (item_url : String) (rest : List String) (st : ClientState) (n : Nat)
    (r : RestResult) (d : RestData)
    (hnet : net n = NetOutcome.ok r)
    (hcode : r.error.code = 0) (hdata : r.data = some d)
    (hpwd : d.accountstate ∉ C.PWD_EXPIRED_OR_INITIAL) :
    login_loop cfg C net (item_url :: rest) st n =
      ({ url := some (item_url ++ d.deviceid),
         session := some { iBaseToken := some d.iBaseToken },
         device_id := some d.deviceid },
       n + 1,
       [Event.acquire,
        Event.send SendTag.fromLogin (item_url ++ "xx/sessions")
          (some (ReqData.loginReq cfg.san_user cfg.san_password cfg.san_scope))
          Verb.post,
        Event.release],
       Except.ok (some d.deviceid)) := by
  simp only [login_loop]
  unfold do_call
  dsimp only [pick_func, init_http_head, effUrl]
  rw [hnet]
  dsimp only
  rw [if_neg (by rw [hcode, hdata]; simp), hdata]
  dsimp only
  rw [if_neg hpwd]

/-- login_loop adopts the first endpoint whose response authenticates:
all earlier endpoints fail and are contacted in order, the succeeding
endpoint becomes the base url together with its device id and token,
and endpoints after it are never contacted. -/
theorem login_loop_first_success (cfg : Config) (C : Constants) (net : Nat → NetOutcome)
    (pre : List String) (suc : String) (rest : List String) :
    ∀ (st : ClientState) (n : Nat) (r : RestResult) (d : RestData),
    (∀ j, j < pre.length → loginRespFails (net (n + j)) = true) →
    net (n + pre.length) = NetOutcome.ok r →
    r.error.code = 0 → r.data = some d →
    d.accountstate ∉ C.PWD_EXPIRED_OR_INITIAL →
    (login_loop cfg C net (pre ++ suc :: rest) st n).1 =
      { url := some (suc ++ d.deviceid),
        session := some { iBaseToken := some d.iBaseToken },
        device_id := some d.deviceid }
    ∧ (login_loop cfg C net (pre ++ suc :: rest) st n).2.1 = n + pre.length + 1
    ∧ (login_loop cfg C net (pre ++ suc :: rest) st n).2.2.2 =
        Except.ok (some d.deviceid)
    ∧ sendUrls (login_loop cfg C net (pre ++ suc :: rest) st n).2.2.1 =
        (pre ++ [suc]).map (fun u => u ++ "xx/sessions") := by
  induction pre with
  | nil =>
      intro st n r d _ hnet hcode hdata hpwd
      rw [List.nil_append]
      rw [login_loop_success_head cfg C net suc rest st n r d
        (by simpa using hnet) hcode hdata hpwd]
      refine ⟨rfl, rfl, rfl, ?_⟩
      simp [sendUrls]
  | cons a pre ih =>
      intro st n r d hfail hnet hcode hdata hpwd
      have hfail0 : loginRespFails (net n) = true := by
        have := hfail 0 (by simp)
        simpa using this
      obtain ⟨res, heq⟩ :=
        login_loop_fail_head cfg C net a (pre ++ suc :: rest) st n hfail0
      rw [List.cons_append, heq]
      have hfail1 : ∀ j, j < pre.length → loginRespFails (net (n + 1 + j)) = true := by
        intro j hj
        have := hfail (j + 1) (by simpa using Nat.succ_lt_succ hj)
        have harith : n + (j + 1) = n + 1 + j := by omega
        rwa [harith] at this
      have hnet1 : net (n + 1 + pre.length) = NetOutcome.ok r := by
        have harith : n + (a :: pre).length = n + 1 + pre.length := by
          simp [List.length_cons]
          omega
        rwa [harith] at hnet
      obtain ⟨ih1, ih2, ih3, ih4⟩ :=
        ih (init_http_head st) (n + 1) r d hfail1 hnet1 hcode hdata hpwd
      refine ⟨ih1, ?_, ih3, ?_⟩
      · dsimp only
        rw [ih2]
        simp [List.length_cons]
        omega
      · dsimp only
        simp only [sendUrls, List.filterMap_cons] at ih4 ⊢
        rw [ih4]
        simp

/-- C6: login iterates the endpoint list in order and adopts the
first endpoint whose response has error code 0 and a data body,
stopping immediately: the sends go to the failing prefix and the
succeeding endpoint, in list order, and to nothing after it, and the
session base url afterwards is the succeeding endpoint's (extended
with the returned device id). -/
theorem C6_login_first_success (cfg : Config) (C : Constants) (net : Nat → NetOutcome)
    (st : ClientState) (n : Nat) (pre : List String) (suc : String)
    (rest : List String) (r : RestResult) (d : RestData)
    (haddr : cfg.san_address = pre ++ suc :: rest)
    (hfail : ∀ j, j < pre.length → loginRespFails (net (n + j)) = true)
    (hnet : net (n + pre.length) = NetOutcome.ok r)
    (hcode : r.error.code = 0) (hdata : r.data = some d)
    (hpwd : d.accountstate ∉ C.PWD_EXPIRED_OR_INITIAL) :
    (login cfg C net st n).1 =
      { url := some (suc ++ d.deviceid),
        session := some { iBaseToken := some d.iBaseToken },
        device_id := some d.deviceid }
    ∧ (login cfg C net st n).2.2.2 = Except.ok d.deviceid
    ∧ sendUrls (login cfg C net st n).2.2.1 =
        (pre ++ [suc]).map (fun u => u ++ "xx/sessions") := by
  obtain ⟨h1, h2, h3, h4⟩ := login_loop_first_success cfg C net pre suc rest st n r d
    hfail hnet hcode hdata hpwd
  rw [← haddr] at h1 h2 h3 h4
  unfold login
  rcases hl : login_loop cfg C net cfg.san_address st n with ⟨st1, n1, tr, v⟩
  rw [hl] at h1 h2 h3 h4
  dsimp only at h1 h2 h3 h4 ⊢
  subst h3
  dsimp only
  exact ⟨h1, rfl, by simpa [sendUrls] using h4⟩

/-- C6 witness: endpoints A, B, C with only C authenticating: login
sends to A, B, C in order and the base url becomes C's. -/
theorem C6_witness :
    (login wCfg wConsts
      (fun k => if k = 2 then okOutcome 0 (some (wData "dev" "tok")) else NetOutcome.exc)
      initialState 0).1 =
      { url := some "C/dev", session := some { iBaseToken := some "tok" },
        device_id := some "dev" }
    ∧ sendUrls (login wCfg wConsts
        (fun k => if k = 2 then okOutcome 0 (some (wData "dev" "tok")) else NetOutcome.exc)
        initialState 0).2.2.1 =
      ["A/xx/sessions", "B/xx/sessions", "C/xx/sessions"] := by
  have h := C6_login_first_success wCfg wConsts
    (fun k => if k = 2 then okOutcome 0 (some (wData "dev" "tok")) else NetOutcome.exc)
    initialState 0 ["A/", "B/"] "C/" []
    { error := { code := 0, description := "d" }, data := some (wData "dev" "tok") }
    (wData "dev" "tok")
    (by decide)
    (by
      intro j hj
      have hj2 : j = 0 ∨ j = 1 := by
        simp at hj
        omega
      rcases hj2 with h | h <;> subst h <;> decide)
    (by decide) (by decide) (by decide) (by decide)
  exact ⟨h.1, by rw [h.2.2]; rfl⟩

/-- Master facts about any call trace: at most two call-attributed
sends, at most one relogin entry, and full gate discipline. -/
theorem call_trace_facts (cfg : Config) (C : Constants) (net : Nat → NetOutcome)
    (st : ClientState) (n : Nat) (url : String) (data : Option ReqData)
    (method : Option String) (ff : Bool) :
    ((call cfg C net st n url data method ff).2.2.1).countP isCallSend ≤ 2
    ∧ ((call cfg C net st n url data method ff).2.2.1).countP isReloginEntry ≤ 1
    ∧ gateOK (call cfg C net st n url data method ff).2.2.1 = true := by
  unfold call
  rcases hurl : st.url with _ | b
  · dsimp only
    have hcond : (unauthorizedResult C).error.code = C.ERROR_CONNECT_TO_SERVER
        ∨ (unauthorizedResult C).error.code = C.ERROR_UNAUTHORIZED_TO_SERVER :=
      Or.inr rfl
    rw [if_pos hcond]
    rcases hrel : relogin cfg C net st n none with ⟨st2, n2, tr2, r2⟩
    obtain ⟨hc2, hr2⟩ := relogin_counts_eq cfg C net st st2 n n2 none tr2 r2 hrel
    have hg2 := relogin_gateOK_eq cfg C net st st2 n n2 none tr2 r2 hrel
    cases r2 with
    | error e =>
        dsimp only
        refine ⟨?_, ?_, ?_⟩
        · simp [List.countP_append, hc2]
        · simp [List.countP_append, hr2]
        · simpa using hg2
    | ok flag =>
        cases flag with
        | false =>
            dsimp only
            refine ⟨?_, ?_, ?_⟩
            · simp [List.countP_append, hc2]
            · simp [List.countP_append, hr2]
            · simpa using hg2
        | true =>
            dsimp only
            rcases hdc2 : do_call C net st2 n2 url data method C.SOCKET_TIMEOUT ff
                SendTag.fromCall with ⟨n3, tr3, r3⟩
            obtain ⟨d1, d2, _, d4, _⟩ :=
              do_call_counts_eq C net st2 n2 url data method C.SOCKET_TIMEOUT ff
                SendTag.fromCall n3 tr3 r3 hdc2
            cases r3 with
            | error e =>
                dsimp only
                refine ⟨?_, ?_, ?_⟩
                · simp [List.countP_append, hc2]
                  omega
                · simp [List.countP_append, hr2, d2]
                · simpa using gateOK_append hg2 d4
            | ok res2 =>
                dsimp only
                split <;>
                  · refine ⟨?_, ?_, ?_⟩
                    · simp [List.countP_append, hc2]
                      omega
                    · simp [List.countP_append, hr2, d2]
                    · simpa using gateOK_append hg2 d4
  · rcases hsess : st.session with _ | s
    · dsimp only
      exact ⟨by simp, by simp, rfl⟩
    · dsimp only
      rcases hdc : do_call C net st n url data method C.SOCKET_TIMEOUT ff
          SendTag.fromCall with ⟨n1, tr1, r1⟩
      obtain ⟨e1, e2, _, e4, _⟩ :=
        do_call_counts_eq C net st n url data method C.SOCKET_TIMEOUT ff
          SendTag.fromCall n1 tr1 r1 hdc
      cases r1 with
      | error e =>
          dsimp only
          exact ⟨e1.trans (by omega), by simp [e2], by simpa using e4⟩
      | ok res1 =>
          dsimp only
          split
          · rcases hrel : relogin cfg C net st n1 s.iBaseToken with ⟨st2, n2, tr2, r2⟩
            obtain ⟨hc2, hr2⟩ :=
              relogin_counts_eq cfg C net st st2 n1 n2 s.iBaseToken tr2 r2 hrel
            have hg2 := relogin_gateOK_eq cfg C net st st2 n1 n2 s.iBaseToken tr2 r2 hrel
            cases r2 with
            | error e =>
                dsimp only
                refine ⟨?_, ?_, ?_⟩
                · simp [List.countP_append, hc2]
                  omega
                · simp [List.countP_append, hr2, e2]
                · exact gateOK_append e4 hg2
            | ok flag =>
                cases flag with
                | false =>
                    dsimp only
                    refine ⟨?_, ?_, ?_⟩
                    · simp [List.countP_append, hc2]
                      omega
                    · simp [List.countP_append, hr2, e2]
                    · exact gateOK_append e4 hg2
                | true =>
                    dsimp only
                    rcases hdc2 : do_call C net st2 n2 url data method C.SOCKET_TIMEOUT ff
                        SendTag.fromCall with ⟨n3, tr3, r3⟩
                    obtain ⟨d1, d2, _, d4, _⟩ :=
                      do_call_counts_eq C net st2 n2 url data method C.SOCKET_TIMEOUT ff
                        SendTag.fromCall n3 tr3 r3 hdc2
                    cases r3 with
                    | error e =>
                        dsimp only
                        refine ⟨?_, ?_, ?_⟩
                        · simp [List.countP_append, hc2]
                          omega
                        · simp [List.countP_append, hr2, e2, d2]
                        · exact gateOK_append (gateOK_append e4 hg2) d4
                    | ok res2 =>
                        dsimp only
                        split <;>
                          · refine ⟨?_, ?_, ?_⟩
                            · simp [List.countP_append, hc2]
                              omega
                            · simp [List.countP_append, hr2, e2, d2]
                            · exact gateOK_append (gateOK_append e4 hg2) d4
          · dsimp only
            exact ⟨e1.trans (by omega), by simp [e2], e4⟩

/-- C1: any invocation of call performs at most two call-attributed
network sends and enters relogin at most once, on every network, state
and argument list — no third attempt is ever made. -/
theorem C1_call_amplification_bounded (cfg : Config) (C : Constants)
    (net : Nat → NetOutcome) (st : ClientState) (n : Nat) (url : String)
    (data : Option ReqData) (method : Option String) (ff : Bool) :
    ((call cfg C net st n url data method ff).2.2.1).countP isCallSend ≤ 2
    ∧ ((call cfg C net st n url data method ff).2.2.1).countP isReloginEntry ≤ 1 :=
  ⟨(call_trace_facts cfg C net st n url data method ff).1,
   (call_trace_facts cfg C net st n url data method ff).2.1⟩

/-- C8: after a sentinel-classified first send, a successful relogin
and a resend whose code is in the pass-through whitelist, call
normalizes the final code to 0; a first send whose code is in the
whitelist but not a sentinel is returned untouched — normalization
never applies to a first send. -/
theorem C8_pass_normalization_resend_only :
    (∀ (cfg : Config) (C : Constants) (net : Nat → NetOutcome) (st : ClientState)
       (n : Nat) (url : String) (data : Option ReqData) (method : Option String)
       (ff : Bool) (b : String) (s : Session) (n1 : Nat) (tr1 : List Event)
       (res1 : RestResult) (st2 : ClientState) (n2 : Nat) (tr2 : List Event)
       (n3 : Nat) (tr3 : List Event) (res2 : RestResult),
       st.url = some b → st.session = some s →
       do_call C net st n url data method C.SOCKET_TIMEOUT ff SendTag.fromCall =
         (n1, tr1, Except.ok res1) →
       (res1.error.code = C.ERROR_CONNECT_TO_SERVER
         ∨ res1.error.code = C.ERROR_UNAUTHORIZED_TO_SERVER) →
       relogin cfg C net st n1 s.iBaseToken = (st2, n2, tr2, Except.ok true) →
       do_call C net st2 n2 url data method C.SOCKET_TIMEOUT ff SendTag.fromCall =
         (n3, tr3, Except.ok res2) →
       res2.error.code ∈ C.RELOGIN_ERROR_PASS →
       call cfg C net st n url data method ff =
         (st2, n3, tr1 ++ tr2 ++ tr3,
          Except.ok { res2 with error := { res2.error with code := 0 } }))
    ∧ (∀ (cfg : Config) (C : Constants) (net : Nat → NetOutcome) (st : ClientState)
       (n : Nat) (url : String) (data : Option ReqData) (method : Option String)
       (ff : Bool) (b : String) (s : Session) (n1 : Nat) (tr1 : List Event)
       (res1 : RestResult),
       st.url = some b → st.session = some s →
       do_call C net st n url data method C.SOCKET_TIMEOUT ff SendTag.fromCall =
         (n1, tr1, Except.ok res1) →
       res1.error.code ≠ C.ERROR_CONNECT_TO_SERVER →
       res1.error.code ≠ C.ERROR_UNAUTHORIZED_TO_SERVER →
       res1.error.code ∈ C.RELOGIN_ERROR_PASS →
       call cfg C net st n url data method ff = (st, n1, tr1, Except.ok res1)) := by
  constructor
  · intro cfg C net st n url data method ff b s n1 tr1 res1 st2 n2 tr2 n3 tr3 res2
      hurl hsess hdc1 hsent hrel hdc2 hpass
    unfold call
    rw [hurl, hsess]
    dsimp only
    rw [hdc1]
    dsimp only
    rw [if_pos hsent, hrel]
    dsimp only
    rw [hdc2]
    dsimp only
    rw [if_pos hpass]
  · intro cfg C net st n url data method ff b s n1 tr1 res1
      hurl hsess hdc1 hcf hua _
    unfold call
    rw [hurl, hsess]
    dsimp only
    rw [hdc1]
    dsimp only
    rw [if_neg]
    intro h
    rcases h with h | h
    · exact hcf h
    · exact hua h

/-- C8 witness: an unauthorized first send, a successful relogin and a
whitelisted resend code 77 end in code 0; a plain first send with code
77 is returned with code 77. -/
theorem C8_witness :
    (call wCfg wConsts
        (fun k => if k = 0 then okOutcome (-401) none
          else if k = 1 then okOutcome 0 (some (wData "dv2" "tk2"))
          else okOutcome 77 none)
        stActive 0 "/lun" none (some "GET") false).2.2.2 =
      Except.ok { error := { code := 0, description := "d" }, data := none }
    ∧ (call wCfg wConsts (fun _ => okOutcome 77 none) stActive 0 "/lun" none
        (some "GET") false).2.2.2 =
      Except.ok { error := { code := 77, description := "d" }, data := none } := by
  constructor
  · rw [C8_pass_normalization_resend_only.1 wCfg wConsts
      (fun k => if k = 0 then okOutcome (-401) none
        else if k = 1 then okOutcome 0 (some (wData "dv2" "tk2"))
        else okOutcome 77 none)
      stActive 0 "/lun" none (some "GET") false "C/dev" { iBaseToken := some "tok" }
      1 _ _ _ 2 _ 3 _ { error := { code := 77, description := "d" }, data := none }
      rfl rfl rfl (by decide) rfl rfl (by decide)]
  · rw [C8_pass_normalization_resend_only.2 wCfg wConsts
      (fun _ => okOutcome 77 none) stActive 0 "/lun" none (some "GET") false
      "C/dev" { iBaseToken := some "tok" } 1 _
      { error := { code := 77, description := "d" }, data := none }
      rfl rfl rfl (by decide) (by decide) (by decide)]

/-- C9: the concurrency gate has capacity 20; every do_call trace is
gate disciplined and releases exactly as many permits as it acquires,
on every outcome; login, relogin and call traces (which contain every
login and relogin send) inherit the discipline; and in the semaphore
transition system, every state reachable from an initial state keeps
the number of in-flight sends at or below the capacity. -/
theorem C9_concurrency_gate :
    semaphoreCapacity = 20
    ∧ (∀ (C : Constants) (net : Nat → NetOutcome) (st : ClientState) (n : Nat)
        (url : String) (data : Option ReqData) (method : Option String)
        (ct : Nat) (ff : Bool) (tag : SendTag) (n1 : Nat) (tr : List Event)
        (r : Except PyErr RestResult),
        do_call C net st n url data method ct ff tag = (n1, tr, r) →
        gateOK tr = true ∧ tr.countP isAcquire = tr.countP isRelease)
    ∧ (∀ (cfg : Config) (C : Constants) (net : Nat → NetOutcome) (st : ClientState)
        (n : Nat), gateOK (login cfg C net st n).2.2.1 = true)
    ∧ (∀ (cfg : Config) (C : Constants) (net : Nat → NetOutcome) (st : ClientState)
        (n : Nat) (tok : Option String),
        gateOK (relogin cfg C net st n tok).2.2.1 = true)
    ∧ (∀ (cfg : Config) (C : Constants) (net : Nat → NetOutcome) (st : ClientState)
        (n : Nat) (url : String) (data : Option ReqData) (method : Option String)
        (ff : Bool), gateOK (call cfg C net st n url data method ff).2.2.1 = true)
    ∧ (∀ s0 s : GateState, GateInit s0 → Relation.ReflTransGen GateStep s0 s →
        inFlightCount s ≤ semaphoreCapacity) := by
  refine ⟨rfl, ?_, login_gateOK, relogin_gateOK, ?_, ?_⟩
  · intro C net st n url data method ct ff tag n1 tr r heq
    obtain ⟨_, _, _, h4, h5⟩ :=
      do_call_counts_eq C net st n url data method ct ff tag n1 tr r heq
    exact ⟨h4, h5⟩
  · intro cfg C net st n url data method ff
    exact (call_trace_facts cfg C net st n url data method ff).2.2
  · intro s0 s h0 hreach
    have := gate_reachable_accounting h0 hreach
    omega

/-- An initial gate state with two idle threads. -/
def gateTwo : GateState :=
  { avail := semaphoreCapacity, procs := [ProcPhase.idle, ProcPhase.idle] }

/-- C9 witness: a concrete do_call trace is one balanced bracket, and
a two-thread initial gate state is within the capacity bound. -/
theorem C9_witness :
    (gateOK (do_call wConsts netAllExc stActive 0 "/lun" none none 52 false
        SendTag.fromCall).2.1 = true)
    ∧ inFlightCount gateTwo ≤ semaphoreCapacity := by
  constructor
  · exact (C9_concurrency_gate.2.1 wConsts netAllExc stActive 0 "/lun" none none
      52 false SendTag.fromCall 1 _ _ rfl).1
  · exact C9_concurrency_gate.2.2.2.2.2 gateTwo gateTwo
      ⟨rfl, by decide⟩ Relation.ReflTransGen.refl

end RestClient
